import Mathlib

/-!
Verification of the core decision logic of the junie-github-action
repository: trigger-phrase detection, regex escaping, branch selection
(src/github/operations/branch.ts), input-size validation
(src/github/validation/input-size.ts), GraphQL retry policy
(GraphQLGitHubDataFetcher.executeGraphQLWithRetry), and repository-access
verification (verifyRepositoryAccess).

JavaScript strings are modelled as Lean String values; character-level
primitives (toLowerCase, substring, endsWith) are modelled over the
underlying character lists, with ASCII case mapping.  Effectful code
(git subprocesses, network calls) is modelled by explicit parameters:
git operations are assumed to succeed (they are external collaborators,
out of scope per the specification), and network results are oracle
parameters of the embedded functions.
-/

namespace JunieAction

/-! ### ASCII character utilities (model of JS string primitives) -/

/-- ASCII lowercasing of a single character, as performed by
String.prototype.toLowerCase on ASCII input (and identically by Lean's
Char.toLower): uppercase letters A-Z (codes 65-90) are shifted by 32,
all other characters are unchanged. -/
def lowerChar (c : Char) : Char :=
  if h : 65 ≤ c.toNat ∧ c.toNat ≤ 90 then
    Char.ofNatAux (c.toNat + 32) (Or.inl (by omega))
  else c

theorem toNat_ofNatAux (n : Nat) (h : n.isValidChar) : (Char.ofNatAux n h).toNat = n := by
  simp [Char.ofNatAux, Char.toNat, UInt32.toNat, BitVec.toNat_ofNatLt]

theorem toNat_lowerChar (c : Char) :
    (lowerChar c).toNat = if 65 ≤ c.toNat ∧ c.toNat ≤ 90 then c.toNat + 32 else c.toNat := by
  unfold lowerChar
  split
  · rw [toNat_ofNatAux]
  · simp [*]

/-- Test for an ASCII uppercase letter (codes 65-90). -/
def isUpperAscii (c : Char) : Bool :=
  decide (65 ≤ c.toNat) && decide (c.toNat ≤ 90)

theorem isUpperAscii_lowerChar (c : Char) : isUpperAscii (lowerChar c) = false := by
  have h := toNat_lowerChar c
  unfold isUpperAscii
  by_cases hc : 65 ≤ c.toNat ∧ c.toNat ≤ 90
  · rw [if_pos hc] at h
    simp only [Bool.and_eq_false_iff, decide_eq_false_iff_not]
    omega
  · rw [if_neg hc] at h
    simp only [Bool.and_eq_false_iff, decide_eq_false_iff_not]
    omega

/-- True when the string contains no ASCII uppercase letter; this is the
sense in which generated branch names are "entirely lowercase". -/
def hasNoUpper (s : String) : Bool :=
  s.data.all (fun c => !isUpperAscii c)

/-- Model of JS String.prototype.toLowerCase restricted to ASCII case
mapping (the only case mapping exercised by this repository). -/
def jsToLower (s : String) : String :=
  String.mk (s.data.map lowerChar)

/-- Model of JS s.substring(0, n): the first n characters of s (all of s
when s is shorter). -/
def jsSubstringTo (n : Nat) (s : String) : String :=
  String.mk (s.data.take n)

theorem length_jsSubstringTo (n : Nat) (s : String) : (jsSubstringTo n s).length ≤ n := by
  show (s.data.take n).length ≤ n
  rw [List.length_take]
  omega

theorem hasNoUpper_jsSubstringTo_jsToLower (n : Nat) (s : String) :
    hasNoUpper (jsSubstringTo n (jsToLower s)) = true := by
  show ((s.data.map lowerChar).take n).all (fun c => !isUpperAscii c) = true
  rw [List.all_eq_true]
  intro x hx
  have hx' : x ∈ s.data.map lowerChar := (List.take_sublist n _).mem hx
  obtain ⟨c, _, rfl⟩ := List.mem_map.mp hx'
  simp [isUpperAscii_lowerChar]

/-- Model of JS String.prototype.endsWith. -/
def jsEndsWith (s suffixStr : String) : Bool :=
  suffixStr.data.isSuffixOf s.data

/-! ### Branch selection (src/github/operations/branch.ts)

The branch module decides, for each triggering event, whether the agent
works on the existing PR head branch or on a freshly created branch, and
computes the new branch name.  Git subprocess calls (fetch/checkout) are
external collaborators and are modelled as succeeding; the only failure
modelled is the REST PR lookup, which the source surfaces as a thrown
error. -/

/-- Result record of branch setup (type BranchInfo in branch.ts). -/
structure BranchInfo where
  baseBranch : String
  workingBranch : String
  isNewBranch : Bool
  deriving Repr, DecidableEq

/-- The PR fields consumed by setupWorkingBranch, whether they come from
the webhook payload (pull_request events) or from the REST
octokit.rest.pulls.get lookup: state, base.ref, head.ref, user.login. -/
structure PullRequestData where
  state : String
  baseRef : String
  headRef : String
  authorLogin : String
  deriving Repr, DecidableEq

/-- The slice of the GitHubContext consumed by setupWorkingBranch.
prData is the outcome of obtaining the PR fields (payload or REST):
none models the REST lookup throwing. -/
structure BranchContext where
  eventName : String
  isPR : Bool
  entityNumber : Option Nat
  prData : Option PullRequestData
  actor : String
  tokenOwnerLogin : String
  createNewBranchForPR : Bool
  inputBaseBranch : Option String
  defaultBranch : String
  pushRef : String
  runId : String
  deriving Repr, DecidableEq

/-- Direct translation of shouldUseExistingPRBranch (branch.ts lines
36-64): reuse the PR head branch when the createNewBranchForPR setting
is off, or the actor is the PR author, or the PR author is the token
owner. -/
def shouldUseExistingPRBranch (createNewBranchForPR : Bool)
    (actor prAuthor tokenOwnerLogin : String) : Bool :=
  if !createNewBranchForPR then true
  else if actor == prAuthor then true
  else if prAuthor == tokenOwnerLogin then true
  else false

/-- JS truthiness of the optional numeric entityNumber (0 and undefined
are falsy). -/
def entityNumberTruthy : Option Nat → Bool
  | some n => n != 0
  | none => false

/-- JS evaluation of the template fragment entityNumber || context.runId
(branch.ts line 195): the entity number when truthy, else the run id. -/
def entityOrRunId (c : BranchContext) : String :=
  match c.entityNumber with
  | some n => if n = 0 then c.runId else toString n
  | none => c.runId

/-- The entityType selection of branch.ts line 194:
isPR ? "pr" : entityNumber ? "issue" : "run". -/
def entityType (c : BranchContext) : String :=
  if c.isPR then "pr" else if entityNumberTruthy c.entityNumber then "issue" else "run"

/-- Removal of the first occurrence of a pattern, as JS
String.prototype.replace(pattern, "") does for a plain string pattern. -/
def removeFirstOccur (pat : List Char) : List Char → List Char
  | [] => []
  | c :: rest =>
    if pat.isPrefixOf (c :: rest) then List.drop pat.length (c :: rest)
    else c :: removeFirstOccur pat rest

/-- Model of payload.ref.replace("refs/heads/", "") (branch.ts line 190). -/
def stripPushRef (ref : String) : String :=
  String.mk (removeFirstOccur "refs/heads/".data ref.data)

/-- JS evaluation of a || b for an optional string a (the empty string is
falsy), as in context.inputs.baseBranch || default_branch (line 107). -/
def jsOrElse (o : Option String) (d : String) : String :=
  match o with
  | some s => if s.isEmpty then d else s
  | none => d

/-- Translation of createNewBranch (branch.ts lines 76-104), success
path: the branch name is lowercased and truncated to 50 characters
(line 78), and the git fetch/checkout side effects are external. -/
def createNewBranch (baseBranch branchName : String) : BranchInfo :=
  let newBranch := jsSubstringTo 50 (jsToLower branchName)
  { baseBranch := baseBranch, workingBranch := newBranch, isNewBranch := true }

/-- The tail of setupWorkingBranch (branch.ts lines 189-196): push-event
base override, branch naming, and the createNewBranch call, starting
from the value baseBranch holds when control reaches line 189. -/
def finishWithNewBranch (c : BranchContext) (base0 : String) : BranchInfo :=
  let base := if c.eventName == "push" then stripPushRef c.pushRef else base0
  let branchName := "junie/" ++ entityType c ++ "-" ++ entityOrRunId c
  createNewBranch base branchName

/-- Translation of setupWorkingBranch (branch.ts lines 106-197).  The
error case models the thrown PR-lookup failure (lines 134-144, message
abbreviated); all git operations are modelled as succeeding. -/
def setupWorkingBranch (c : BranchContext) : Except String BranchInfo :=
  let baseBranch := jsOrElse c.inputBaseBranch c.defaultBranch
  if c.isPR && entityNumberTruthy c.entityNumber then
    match c.prData with
    | none => .error "Failed to fetch PR information"
    | some pr =>
      let useExisting := shouldUseExistingPRBranch c.createNewBranchForPR c.actor
        pr.authorLogin c.tokenOwnerLogin
      if pr.state == "CLOSED" || pr.state == "MERGED" then
        .ok (finishWithNewBranch c pr.baseRef)
      else if useExisting then
        .ok { baseBranch := pr.baseRef, workingBranch := pr.headRef, isNewBranch := false }
      else
        .ok (finishWithNewBranch c pr.headRef)
  else
    .ok (finishWithNewBranch c baseBranch)

theorem shouldUseExistingPRBranch_eq_true_iff (b : Bool) (actor prAuthor owner : String) :
    shouldUseExistingPRBranch b actor prAuthor owner = true ↔
      (b = false ∨ actor = prAuthor ∨ prAuthor = owner) := by
  unfold shouldUseExistingPRBranch
  cases b <;> simp [beq_iff_eq]

/-- Every successful branch setup either produced a new branch whose name
is the lowercased, 50-truncated junie name, or reused the PR head
branch. -/
theorem setupWorkingBranch_cases (c : BranchContext) (r : BranchInfo)
    (h : setupWorkingBranch c = .ok r) :
    (r.isNewBranch = true →
      r.workingBranch = jsSubstringTo 50 (jsToLower ("junie/" ++ entityType c ++ "-" ++ entityOrRunId c)))
    ∧ (r.isNewBranch = false → ∃ pr, c.prData = some pr ∧ r.workingBranch = pr.headRef) := by
  unfold setupWorkingBranch at h
  simp only at h
  split at h
  · cases hd : c.prData with
    | none => rw [hd] at h; exact absurd h (by simp)
    | some pr =>
      rw [hd] at h
      simp only at h
      split at h
      · have hr : r = finishWithNewBranch c pr.baseRef := by
          cases h; rfl
        subst hr
        exact ⟨fun _ => rfl, fun hfalse => absurd hfalse (by simp [finishWithNewBranch, createNewBranch])⟩
      · split at h
        · have hr : r = { baseBranch := pr.baseRef, workingBranch := pr.headRef, isNewBranch := false } := by
            cases h; rfl
          subst hr
          exact ⟨fun htrue => absurd htrue (by simp), fun _ => ⟨pr, rfl, rfl⟩⟩
        · have hr : r = finishWithNewBranch c pr.headRef := by
            cases h; rfl
          subst hr
          exact ⟨fun _ => rfl, fun hfalse => absurd hfalse (by simp [finishWithNewBranch, createNewBranch])⟩
  · have hr : r = finishWithNewBranch c (jsOrElse c.inputBaseBranch c.defaultBranch) := by
      cases h; rfl
    subst hr
    exact ⟨fun _ => rfl, fun hfalse => absurd hfalse (by simp [finishWithNewBranch, createNewBranch])⟩

/-- C2: for every PR context whose PR state is OPEN, branch selection
reuses the existing PR head branch (isNewBranch = false and
workingBranch = pr.headBranch) if and only if createNewBranchForPR is
false, or the actor equals the PR author, or the PR author equals the
token owner; otherwise it creates a new branch. -/
theorem setupWorkingBranch_open_pr (c : BranchContext) (pr : PullRequestData)
    (hpr : c.isPR = true) (hnum : entityNumberTruthy c.entityNumber = true)
    (hdata : c.prData = some pr) (hstate : pr.state = "OPEN") :
    ∃ r, setupWorkingBranch c = Except.ok r
      ∧ ((c.createNewBranchForPR = false ∨ c.actor = pr.authorLogin ∨ pr.authorLogin = c.tokenOwnerLogin)
          → r.isNewBranch = false ∧ r.workingBranch = pr.headRef)
      ∧ (¬(c.createNewBranchForPR = false ∨ c.actor = pr.authorLogin ∨ pr.authorLogin = c.tokenOwnerLogin)
          → r.isNewBranch = true) := by
  by_cases hu : shouldUseExistingPRBranch c.createNewBranchForPR c.actor pr.authorLogin c.tokenOwnerLogin = true
  · refine ⟨{ baseBranch := pr.baseRef, workingBranch := pr.headRef, isNewBranch := false }, ?_, ?_, ?_⟩
    · simp [setupWorkingBranch, hpr, hnum, hdata, hstate, hu]
    · intro _
      exact ⟨rfl, rfl⟩
    · intro hcond
      exact absurd ((shouldUseExistingPRBranch_eq_true_iff _ _ _ _).mp hu) hcond
  · rw [Bool.not_eq_true] at hu
    refine ⟨finishWithNewBranch c pr.headRef, ?_, ?_, ?_⟩
    · simp [setupWorkingBranch, hpr, hnum, hdata, hstate, hu]
    · intro hcond
      have := (shouldUseExistingPRBranch_eq_true_iff c.createNewBranchForPR c.actor pr.authorLogin c.tokenOwnerLogin).mpr hcond
      rw [hu] at this
      exact absurd this (by simp)
    · intro _
      rfl

/-- Witness for C2: an OPEN PR, createNewBranchForPR on, actor equal to
the author: the head branch is reused. -/
theorem setupWorkingBranch_open_pr_witness :
    ∃ r, setupWorkingBranch
        { eventName := "pull_request", isPR := true, entityNumber := some 5,
          prData := some { state := "OPEN", baseRef := "main", headRef := "feature-x", authorLogin := "alice" },
          actor := "alice", tokenOwnerLogin := "junie-app", createNewBranchForPR := true,
          inputBaseBranch := none, defaultBranch := "main", pushRef := "", runId := "42" } = Except.ok r
      ∧ ((true = false ∨ "alice" = "alice" ∨ "alice" = "junie-app")
          → r.isNewBranch = false ∧ r.workingBranch = "feature-x")
      ∧ (¬(true = false ∨ "alice" = "alice" ∨ "alice" = "junie-app")
          → r.isNewBranch = true) :=
  setupWorkingBranch_open_pr
    { eventName := "pull_request", isPR := true, entityNumber := some 5,
      prData := some { state := "OPEN", baseRef := "main", headRef := "feature-x", authorLogin := "alice" },
      actor := "alice", tokenOwnerLogin := "junie-app", createNewBranchForPR := true,
      inputBaseBranch := none, defaultBranch := "main", pushRef := "", runId := "42" }
    { state := "OPEN", baseRef := "main", headRef := "feature-x", authorLogin := "alice" }
    rfl rfl rfl rfl

/-- C3: for every PR context whose PR state is CLOSED or MERGED, branch
selection always creates a new branch, regardless of the
createNewBranchForPR setting and of actor/author/token-owner equality. -/
theorem setupWorkingBranch_closed_or_merged_pr (c : BranchContext) (pr : PullRequestData)
    (hpr : c.isPR = true) (hnum : entityNumberTruthy c.entityNumber = true)
    (hdata : c.prData = some pr) (hstate : pr.state = "CLOSED" ∨ pr.state = "MERGED") :
    ∃ r, setupWorkingBranch c = Except.ok r ∧ r.isNewBranch = true := by
  refine ⟨finishWithNewBranch c pr.baseRef, ?_, rfl⟩
  rcases hstate with h | h <;> simp [setupWorkingBranch, hpr, hnum, hdata, h]

/-- Witness for C3: a MERGED PR whose actor is the author and with
createNewBranchForPR off still gets a new branch. -/
theorem setupWorkingBranch_closed_or_merged_pr_witness :
    ∃ r, setupWorkingBranch
        { eventName := "pull_request", isPR := true, entityNumber := some 9,
          prData := some { state := "MERGED", baseRef := "main", headRef := "feature-y", authorLogin := "alice" },
          actor := "alice", tokenOwnerLogin := "junie-app", createNewBranchForPR := false,
          inputBaseBranch := none, defaultBranch := "main", pushRef := "", runId := "77" } = Except.ok r
      ∧ r.isNewBranch = true :=
  setupWorkingBranch_closed_or_merged_pr
    { eventName := "pull_request", isPR := true, entityNumber := some 9,
      prData := some { state := "MERGED", baseRef := "main", headRef := "feature-y", authorLogin := "alice" },
      actor := "alice", tokenOwnerLogin := "junie-app", createNewBranchForPR := false,
      inputBaseBranch := none, defaultBranch := "main", pushRef := "", runId := "77" }
    { state := "MERGED", baseRef := "main", headRef := "feature-y", authorLogin := "alice" }
    rfl rfl rfl (Or.inr rfl)

/-- C4: when a new branch is created for an open PR because none of the
reuse conditions hold (external contributor case), its base branch is
the PR head branch, not the PR nominal base branch. -/
theorem setupWorkingBranch_external_contributor (c : BranchContext) (pr : PullRequestData)
    (hpr : c.isPR = true) (hnum : entityNumberTruthy c.entityNumber = true)
    (hdata : c.prData = some pr)
    (hnc : pr.state ≠ "CLOSED") (hnm : pr.state ≠ "MERGED")
    (hcfg : c.createNewBranchForPR = true)
    (hactor : c.actor ≠ pr.authorLogin) (howner : pr.authorLogin ≠ c.tokenOwnerLogin)
    (hpush : c.eventName ≠ "push") :
    ∃ r, setupWorkingBranch c = Except.ok r ∧ r.isNewBranch = true ∧ r.baseBranch = pr.headRef := by
  have hu : shouldUseExistingPRBranch c.createNewBranchForPR c.actor pr.authorLogin c.tokenOwnerLogin = false := by
    rw [← Bool.not_eq_true, shouldUseExistingPRBranch_eq_true_iff]
    push_neg
    refine ⟨by simp [hcfg], hactor, howner⟩
  refine ⟨finishWithNewBranch c pr.headRef, ?_, rfl, ?_⟩
  · simp [setupWorkingBranch, hpr, hnum, hdata, hu, hnc, hnm]
  · show (finishWithNewBranch c pr.headRef).baseBranch = pr.headRef
    simp [finishWithNewBranch, createNewBranch, hpush]

/-- Witness for C4: an external contributor (actor differs from author,
author differs from token owner) with createNewBranchForPR on: the new
branch is based on the PR head branch "feature-z", not on "main". -/
theorem setupWorkingBranch_external_contributor_witness :
    ∃ r, setupWorkingBranch
        { eventName := "pull_request", isPR := true, entityNumber := some 3,
          prData := some { state := "OPEN", baseRef := "main", headRef := "feature-z", authorLogin := "alice" },
          actor := "bob", tokenOwnerLogin := "junie-app", createNewBranchForPR := true,
          inputBaseBranch := none, defaultBranch := "main", pushRef := "", runId := "11" } = Except.ok r
      ∧ r.isNewBranch = true ∧ r.baseBranch = "feature-z" :=
  setupWorkingBranch_external_contributor
    { eventName := "pull_request", isPR := true, entityNumber := some 3,
      prData := some { state := "OPEN", baseRef := "main", headRef := "feature-z", authorLogin := "alice" },
      actor := "bob", tokenOwnerLogin := "junie-app", createNewBranchForPR := true,
      inputBaseBranch := none, defaultBranch := "main", pushRef := "", runId := "11" }
    { state := "OPEN", baseRef := "main", headRef := "feature-z", authorLogin := "alice" }
    rfl rfl rfl (by decide) (by decide) rfl (by decide) (by decide) (by decide)

/-- Counterexample for C5 as stated: in the branch-reuse case the working
branch is the unmodified existing PR head branch, which need not be
lowercase nor at most 50 characters.  Here the head branch is 51
uppercase letters and is returned untouched. -/
theorem setupWorkingBranch_workingBranch_counterexample :
    setupWorkingBranch
        { eventName := "pull_request", isPR := true, entityNumber := some 7,
          prData := some { state := "OPEN", baseRef := "main", headRef := "AAAAAAAAAAAAAAAAAAAAAAAAAAAAAAAAAAAAAAAAAAAAAAAAAAA", authorLogin := "alice" },
          actor := "alice", tokenOwnerLogin := "junie-app", createNewBranchForPR := true,
          inputBaseBranch := none, defaultBranch := "main", pushRef := "", runId := "1" }
      = Except.ok { baseBranch := "main", workingBranch := "AAAAAAAAAAAAAAAAAAAAAAAAAAAAAAAAAAAAAAAAAAAAAAAAAAA", isNewBranch := false }
    ∧ ¬(("AAAAAAAAAAAAAAAAAAAAAAAAAAAAAAAAAAAAAAAAAAAAAAAAAAA" : String).length ≤ 50
        ∧ hasNoUpper "AAAAAAAAAAAAAAAAAAAAAAAAAAAAAAAAAAAAAAAAAAAAAAAAAAA" = true) := by
  constructor
  · rfl
  · decide

/-- C5 amended: the working branch is at most 50 characters and entirely
lowercase in the new-branch case; in the reuse case it equals the
existing PR head branch (which is returned unmodified). -/
theorem setupWorkingBranch_workingBranch_inv (c : BranchContext) (r : BranchInfo)
    (h : setupWorkingBranch c = Except.ok r) :
    (r.isNewBranch = true → r.workingBranch.length ≤ 50 ∧ hasNoUpper r.workingBranch = true)
    ∧ (r.isNewBranch = false → ∃ pr, c.prData = some pr ∧ r.workingBranch = pr.headRef) := by
  obtain ⟨h1, h2⟩ := setupWorkingBranch_cases c r h
  refine ⟨fun hn => ?_, h2⟩
  rw [h1 hn]
  exact ⟨length_jsSubstringTo _ _, hasNoUpper_jsSubstringTo_jsToLower _ _⟩

/-- Witness for C5 amended: evaluated on an issue context, the generated
working branch satisfies both bounds. -/
theorem setupWorkingBranch_workingBranch_inv_witness :
    (({ baseBranch := "main", workingBranch := "junie/issue-8", isNewBranch := true } : BranchInfo).isNewBranch = true
      → ({ baseBranch := "main", workingBranch := "junie/issue-8", isNewBranch := true } : BranchInfo).workingBranch.length ≤ 50
        ∧ hasNoUpper ({ baseBranch := "main", workingBranch := "junie/issue-8", isNewBranch := true } : BranchInfo).workingBranch = true)
    ∧ (({ baseBranch := "main", workingBranch := "junie/issue-8", isNewBranch := true } : BranchInfo).isNewBranch = false
      → ∃ pr, ({ eventName := "issues", isPR := false, entityNumber := some 8, prData := none, actor := "carol", tokenOwnerLogin := "junie-app", createNewBranchForPR := false, inputBaseBranch := none, defaultBranch := "main", pushRef := "", runId := "55" } : BranchContext).prData = some pr
          ∧ ({ baseBranch := "main", workingBranch := "junie/issue-8", isNewBranch := true } : BranchInfo).workingBranch = pr.headRef) :=
  setupWorkingBranch_workingBranch_inv
    { eventName := "issues", isPR := false, entityNumber := some 8,
      prData := none, actor := "carol", tokenOwnerLogin := "junie-app",
      createNewBranchForPR := false, inputBaseBranch := none, defaultBranch := "main",
      pushRef := "", runId := "55" }
    { baseBranch := "main", workingBranch := "junie/issue-8", isNewBranch := true }
    rfl

/-- C6: every generated new-branch name is the string
junie/<entityType>-<entityNumberOrRunId>, with entityType pr, issue or
run, selected by the isPR flag and the truthiness of the entity number,
lowercased and truncated to at most 50 characters. -/
theorem setupWorkingBranch_new_branch_name (c : BranchContext) (r : BranchInfo)
    (h : setupWorkingBranch c = Except.ok r) (hnew : r.isNewBranch = true) :
    ∃ ty, (ty = "pr" ∨ ty = "issue" ∨ ty = "run")
      ∧ (c.isPR = true → ty = "pr")
      ∧ (c.isPR = false → entityNumberTruthy c.entityNumber = true → ty = "issue")
      ∧ (c.isPR = false → entityNumberTruthy c.entityNumber = false → ty = "run")
      ∧ r.workingBranch = jsSubstringTo 50 (jsToLower ("junie/" ++ ty ++ "-" ++ entityOrRunId c))
      ∧ r.workingBranch.length ≤ 50
      ∧ hasNoUpper r.workingBranch = true := by
  refine ⟨entityType c, ?_, ?_, ?_, ?_, ?_, ?_, ?_⟩
  · unfold entityType
    split
    · exact Or.inl rfl
    · split
      · exact Or.inr (Or.inl rfl)
      · exact Or.inr (Or.inr rfl)
  · intro hp
    simp [entityType, hp]
  · intro hp hn
    simp [entityType, hp, hn]
  · intro hp hn
    simp [entityType, hp, hn]
  · exact (setupWorkingBranch_cases c r h).1 hnew
  · rw [(setupWorkingBranch_cases c r h).1 hnew]
    exact length_jsSubstringTo _ _
  · rw [(setupWorkingBranch_cases c r h).1 hnew]
    exact hasNoUpper_jsSubstringTo_jsToLower _ _

/-- Witness for C6: a PR context with an uppercase run id produces the
lowercased, truncated name junie/pr-12. -/
theorem setupWorkingBranch_new_branch_name_witness :
    ∃ ty, (ty = "pr" ∨ ty = "issue" ∨ ty = "run")
      ∧ (true = true → ty = "pr")
      ∧ (true = false → entityNumberTruthy (some 12) = true → ty = "issue")
      ∧ (true = false → entityNumberTruthy (some 12) = false → ty = "run")
      ∧ ({ baseBranch := "feature-w", workingBranch := "junie/pr-12", isNewBranch := true } : BranchInfo).workingBranch
          = jsSubstringTo 50 (jsToLower ("junie/" ++ ty ++ "-" ++ entityOrRunId
              { eventName := "pull_request", isPR := true, entityNumber := some 12,
                prData := some { state := "OPEN", baseRef := "main", headRef := "feature-w", authorLogin := "alice" },
                actor := "bob", tokenOwnerLogin := "junie-app", createNewBranchForPR := true,
                inputBaseBranch := none, defaultBranch := "main", pushRef := "", runId := "99" }))
      ∧ ({ baseBranch := "feature-w", workingBranch := "junie/pr-12", isNewBranch := true } : BranchInfo).workingBranch.length ≤ 50
      ∧ hasNoUpper ({ baseBranch := "feature-w", workingBranch := "junie/pr-12", isNewBranch := true } : BranchInfo).workingBranch = true :=
  setupWorkingBranch_new_branch_name
    { eventName := "pull_request", isPR := true, entityNumber := some 12,
      prData := some { state := "OPEN", baseRef := "main", headRef := "feature-w", authorLogin := "alice" },
      actor := "bob", tokenOwnerLogin := "junie-app", createNewBranchForPR := true,
      inputBaseBranch := none, defaultBranch := "main", pushRef := "", runId := "99" }
    { baseBranch := "feature-w", workingBranch := "junie/pr-12", isNewBranch := true }
    rfl rfl

/-! ### Input-size validation (src/github/validation/input-size.ts) -/

/-- MAX_INPUT_SIZE from input-size.ts line 8. -/
def maxInputSize : Nat := 19000

/-- The error message built in input-size.ts lines 24-27, with both the
actual size and the maximum size interpolated. -/
def inputSizeErrorMessage (inputName : String) (actualSize maxSize : Nat) : String :=
  "❌ Input \"" ++ inputName ++ "\" is too large: " ++ toString actualSize
    ++ " characters (maximum: " ++ toString maxSize
    ++ "). This limit exists because GitHub workflow_dispatch inputs are limited to 20KB. Please reduce the size of your "
    ++ inputName ++ " and try again."

/-- Translation of validateInputSize (input-size.ts lines 20-34).  The
source throws on oversize and returns void otherwise; the throw is
modelled as Except.error carrying the thrown message.  The input string
itself is never modified. -/
def validateInputSize (input : String) (inputName : String) : Except String Unit :=
  let actualSize := input.length
  if actualSize > maxInputSize then
    Except.error (inputSizeErrorMessage inputName actualSize maxInputSize)
  else
    Except.ok ()

/-- C7: every prompt of length at most 19000 (the empty string and the
exact bound included) passes validation, and every longer prompt fails
with an error whose message contains both the actual size and the
maximum size 19000; the input is never truncated, the oversized case is
a hard error. -/
theorem validateInputSize_spec (input inputName : String) :
    (input.length ≤ 19000 → validateInputSize input inputName = Except.ok ())
    ∧ (input.length > 19000 →
        validateInputSize input inputName
            = Except.error (inputSizeErrorMessage inputName input.length 19000)
          ∧ ∃ pre mid post, inputSizeErrorMessage inputName input.length 19000
              = pre ++ toString input.length ++ mid ++ toString 19000 ++ post) := by
  constructor
  · intro hle
    have : ¬ input.length > maxInputSize := by
      unfold maxInputSize
      omega
    simp [validateInputSize, this]
  · intro hgt
    have : input.length > maxInputSize := hgt
    constructor
    · simp [validateInputSize, this]
      rfl
    · refine ⟨"❌ Input \"" ++ inputName ++ "\" is too large: ", " characters (maximum: ",
        "). This limit exists because GitHub workflow_dispatch inputs are limited to 20KB. Please reduce the size of your "
          ++ inputName ++ " and try again.", ?_⟩
      simp [inputSizeErrorMessage, String.append_assoc]

/-- Witness for C7: a prompt of exactly 19000 characters passes, one of
19001 characters fails with the message naming 19001 and 19000. -/
theorem validateInputSize_spec_witness :
    validateInputSize (String.mk (List.replicate 19000 'a')) "prompt" = Except.ok ()
    ∧ validateInputSize (String.mk (List.replicate 19001 'a')) "prompt"
        = Except.error (inputSizeErrorMessage "prompt" (String.mk (List.replicate 19001 'a')).length 19000) := by
  constructor
  · refine (validateInputSize_spec (String.mk (List.replicate 19000 'a')) "prompt").1 ?_
    show (List.replicate 19000 'a').length ≤ 19000
    rw [List.length_replicate]
  · refine ((validateInputSize_spec (String.mk (List.replicate 19001 'a')) "prompt").2 ?_).1
    show (List.replicate 19001 'a').length > 19000
    rw [List.length_replicate]
    exact Nat.lt_succ_self 19000

/-! ### GraphQL retry policy (GraphQLGitHubDataFetcher.executeGraphQLWithRetry)

The wrapper delegates to the p-retry library.  p-retry is embedded with
its documented semantics: the operation is run once and re-run up to
retries more times; throwing AbortError stops retrying immediately; the
delay before the (i+1)-th re-run is min(minTimeout * factor^i,
maxTimeout), with factor defaulting to 2.  The network is modelled as an
oracle giving the outcome of each attempt. -/

/-- An error raised by the GraphQL client: an optional HTTP status and a
message. -/
structure GraphQLError where
  status : Option Nat
  message : String
  deriving Repr, DecidableEq

/-- The retry options passed in part_008 lines 53-57 together with the
p-retry factor default. -/
structure PRetryOptions where
  retries : Nat
  factor : Nat
  minTimeout : Nat
  maxTimeout : Nat
  deriving Repr, DecidableEq

/-- The p-retry backoff delay before re-running after the (i+1)-th
failed attempt (0-based i). -/
def retryDelay (opts : PRetryOptions) (attemptIdx : Nat) : Nat :=
  min (opts.minTimeout * opts.factor ^ attemptIdx) opts.maxTimeout

/-- Outcome of a retried computation: the value or the final error,
together with the number of attempts made and the backoff delays slept
between attempts. -/
inductive RetryOutcome (α : Type) where
  | success (attemptsMade : Nat) (delays : List Nat) (value : α)
  | failure (attemptsMade : Nat) (delays : List Nat) (err : GraphQLError)

/-- The p-retry loop.  The oracle gives each attempt outcome; an error
tagged true is an AbortError and stops retrying at once. -/
def pRetryGo {α : Type} (opts : PRetryOptions) (oracle : Nat → Except (Bool × GraphQLError) α) :
    Nat → Nat → List Nat → RetryOutcome α
  | attemptIdx, retriesLeft, delays =>
    match oracle attemptIdx with
    | .ok v => .success (attemptIdx + 1) delays.reverse v
    | .error (aborted, e) =>
      if aborted then .failure (attemptIdx + 1) delays.reverse e
      else
        match retriesLeft with
        | 0 => .failure (attemptIdx + 1) delays.reverse e
        | r + 1 => pRetryGo opts oracle (attemptIdx + 1) r (retryDelay opts attemptIdx :: delays)

/-- p-retry entry point. -/
def pRetry {α : Type} (opts : PRetryOptions) (oracle : Nat → Except (Bool × GraphQLError) α) :
    RetryOutcome α :=
  pRetryGo opts oracle 0 opts.retries []

/-- The error classification in the inner try/catch of
executeGraphQLWithRetry (part_008 lines 22-51): status 404 and 422 are
wrapped in AbortError (never retried), so are 401 and 403; every other
failure is rethrown as retryable. -/
def classifyGraphQLAttempt {α : Type} (raw : Except GraphQLError α) :
    Except (Bool × GraphQLError) α :=
  match raw with
  | .ok v => .ok v
  | .error e =>
    if e.status == some 404 || e.status == some 422 then .error (true, e)
    else if e.status == some 401 || e.status == some 403 then .error (true, e)
    else .error (false, e)

/-- The options object of part_008 lines 53-57 (retries 3, minTimeout
1000, maxTimeout 5000) with the p-retry default factor 2. -/
def graphQLRetryOptions : PRetryOptions :=
  { retries := 3, factor := 2, minTimeout := 1000, maxTimeout := 5000 }

/-- Translation of executeGraphQLWithRetry (part_008 lines 16-63): the
classified GraphQL call run under p-retry with the options above. -/
def executeGraphQLWithRetry {α : Type} (oracle : Nat → Except GraphQLError α) :
    RetryOutcome α :=
  pRetry graphQLRetryOptions (fun i => classifyGraphQLAttempt (oracle i))

/-- C8: a first attempt failing with HTTP status 404, 422, 401 or 403 is
surfaced immediately after exactly one attempt with no retry and no
backoff sleep, while a persistent failure with any other status is
retried exactly 3 times (4 attempts in all) with exponential backoff
delays 1000ms, 2000ms, 4000ms, each between 1 and 5 seconds, before the
last error is surfaced as fatal. -/
theorem executeGraphQLWithRetry_policy {α : Type} (oracle : Nat → Except GraphQLError α) :
    (∀ e, oracle 0 = Except.error e →
      (e.status = some 404 ∨ e.status = some 422 ∨ e.status = some 401 ∨ e.status = some 403) →
      executeGraphQLWithRetry oracle = RetryOutcome.failure 1 [] e)
    ∧ (∀ errs : Nat → GraphQLError,
        (∀ i, i ≤ 3 → oracle i = Except.error (errs i)) →
        (∀ i, i ≤ 3 → (errs i).status ≠ some 404 ∧ (errs i).status ≠ some 422
            ∧ (errs i).status ≠ some 401 ∧ (errs i).status ≠ some 403) →
        executeGraphQLWithRetry oracle = RetryOutcome.failure 4 [1000, 2000, 4000] (errs 3)
          ∧ ∀ d ∈ [1000, 2000, 4000], 1000 ≤ d ∧ d ≤ 5000) := by
  constructor
  · intro e h0 hstatus
    have hc : classifyGraphQLAttempt (oracle 0) = Except.error (true, e) := by
      rw [h0]
      rcases hstatus with h | h | h | h <;> simp [classifyGraphQLAttempt, h]
    show pRetryGo graphQLRetryOptions (fun i => classifyGraphQLAttempt (oracle i)) 0 3 [] = _
    rw [pRetryGo]
    simp [hc]
  · intro errs herr hstat
    have hc : ∀ i, i ≤ 3 →
        classifyGraphQLAttempt (oracle i) = Except.error (false, errs i) := by
      intro i hi
      obtain ⟨h4, h2, h1, h3⟩ := hstat i hi
      rw [herr i hi]
      simp [classifyGraphQLAttempt, h4, h2, h1, h3]
    refine ⟨?_, by decide⟩
    show pRetryGo graphQLRetryOptions (fun i => classifyGraphQLAttempt (oracle i)) 0 3 [] = _
    rw [pRetryGo]
    simp only [hc 0 (by omega)]
    rw [pRetryGo]
    simp only [hc 1 (by omega)]
    rw [pRetryGo]
    simp only [hc 2 (by omega)]
    rw [pRetryGo]
    simp only [hc 3 (by omega)]
    rfl

/-- Witness for C8: a 404 on the first attempt is surfaced at once, and
a persistent status-500 failure is surfaced after 4 attempts with
delays 1000, 2000, 4000. -/
theorem executeGraphQLWithRetry_policy_witness :
    executeGraphQLWithRetry (α := Unit) (fun _ => Except.error { status := some 404, message := "not found" })
        = RetryOutcome.failure 1 [] { status := some 404, message := "not found" }
    ∧ executeGraphQLWithRetry (α := Unit) (fun _ => Except.error { status := some 500, message := "boom" })
        = RetryOutcome.failure 4 [1000, 2000, 4000] { status := some 500, message := "boom" } := by
  constructor
  · exact (executeGraphQLWithRetry_policy (α := Unit)
      (fun _ => Except.error { status := some 404, message := "not found" })).1
      { status := some 404, message := "not found" } rfl (Or.inl rfl)
  · exact ((executeGraphQLWithRetry_policy (α := Unit)
      (fun _ => Except.error { status := some 500, message := "boom" })).2
      (fun _ => { status := some 500, message := "boom" })
      (fun _ _ => rfl) (by intro i hi; refine ⟨?_, ?_, ?_, ?_⟩ <;> simp)).1

/-! ### Repository-access verification (verifyRepositoryAccess, part_004) -/

/-- Model of JS String.prototype.includes. -/
def containsSubstring (s sub : String) : Bool :=
  (List.range (s.data.length + 1)).any (fun i => sub.data.isPrefixOf (s.data.drop i))

/-- Translation of verifyRepositoryAccess (part_004 lines 16-74).  The
collaborator-permission API call is modelled by the apiResult parameter
(its permission level, or the message of the error it threw); the
second component counts how many times that API was consulted.  Actors
whose login ends with the "[bot]" suffix return true before the API is
reached.  Thrown errors are modelled as Except.error (message text
abbreviated to its first sentence). -/
def verifyRepositoryAccess (actor repoFullName : String)
    (apiResult : Except String String) : Except String Bool × Nat :=
  if jsEndsWith actor "[bot]" then (Except.ok true, 0)
  else
    match apiResult with
    | .ok permissionLevel =>
      if permissionLevel == "admin" || permissionLevel == "write" then (Except.ok true, 1)
      else (Except.ok false, 1)
    | .error msg =>
      if containsSubstring msg "404" then
        (Except.error ("❌ Failed to check permissions: User \"" ++ actor
          ++ "\" is not a collaborator on " ++ repoFullName
          ++ ". Only repository collaborators with write access can trigger Junie."), 1)
      else
        (Except.error ("❌ Failed to check permissions for \"" ++ actor ++ "\" on "
          ++ repoFullName ++ ". Original error: " ++ msg), 1)

/-- C10: every actor whose login ends with the suffix "[bot]" passes the
repository-access verification with result true and zero calls to the
collaborator-permission API, whatever that API would have returned or
thrown. -/
theorem verifyRepositoryAccess_bot_bypass (actor repoFullName : String)
    (apiResult : Except String String) (h : jsEndsWith actor "[bot]" = true) :
    verifyRepositoryAccess actor repoFullName apiResult = (Except.ok true, 0) := by
  unfold verifyRepositoryAccess
  rw [h]
  rfl

/-- Witness for C10: github-actions[bot] bypasses the check even while
the permission API is in a throwing state. -/
theorem verifyRepositoryAccess_bot_bypass_witness :
    verifyRepositoryAccess "github-actions[bot]" "octo/repo" (Except.error "rate limited")
      = (Except.ok true, 0) :=
  verifyRepositoryAccess_bot_bypass "github-actions[bot]" "octo/repo"
    (Except.error "rate limited") (by decide)

/-! ### Trigger-phrase detection and regex escaping
(src/github/validation/trigger.ts)

The implementation file trigger.ts is not among the provided sources;
only its test suites (part_000, part_001,
test/trigger-validation.case-insensitive.test.ts) import it.  Its
functions are therefore modelled from the specification (section 4.1)
and checked below against concrete behaviours pinned by those tests. -/

/-- A JS word character in the sense of the regex class backslash-w:
ASCII letters, digits, or underscore. -/
def isWordChar (c : Char) : Bool :=
  c.isAlphanum || c == '_'

/-- Case-insensitive equality of character lists (ASCII folding), the
comparison performed by a case-insensitive regex on its literal part. -/
def ciListEq : List Char → List Char → Bool
  | [], [] => true
  | a :: as, b :: bs => (lowerChar a == lowerChar b) && ciListEq as bs
  | _, _ => false

/-- Decision of a standalone case-insensitive occurrence of p in t at
position i: the slice of t at i equals p up to case, and both sides of
the slice are a string edge or a non-word character. -/
def standaloneMatchAt (p t : List Char) (i : Nat) : Bool :=
  decide (i + p.length ≤ t.length)
    && ciListEq ((t.drop i).take p.length) p
    && (decide (i = 0) || !isWordChar (t.getD (i - 1) ' '))
    && (decide (i + p.length = t.length) || !isWordChar (t.getD (i + p.length) ' '))

/-- Modelled from the spec: the phrase path of the missing
checkContainsTrigger (src/github/validation/trigger.ts), step 3 of
section 4.1: a case-insensitive pattern requiring a non-word character
or string boundary immediately before and after the escaped phrase,
tested against a text.  The regex test is modelled by a scan over all
candidate positions. -/
def phraseMatches (phrase text : String) : Bool :=
  (List.range (text.data.length + 1)).any (fun i => standaloneMatchAt phrase.data text.data i)

/-- Modelled from the spec: the traversal of the event text fields by
the missing checkContainsTrigger (src/github/validation/trigger.ts):
each field is tested in order, a null field is treated as the empty
string, and any one matching field suffices. -/
def detectTriggerPhrase (phrase : String) (textFields : List (Option String)) : Bool :=
  textFields.any (fun tf => phraseMatches phrase (tf.getD ""))

/-- Declarative statement of a standalone occurrence: the phrase matches
t character-by-character up to ASCII case at offset i, the character
before (if any) is a non-word character, and the character after (if
any) is a non-word character. -/
def StandaloneOccurrenceAt (p t : List Char) (i : Nat) : Prop :=
  i + p.length ≤ t.length
    ∧ (∀ j < p.length, lowerChar (t.getD (i + j) ' ') = lowerChar (p.getD j ' '))
    ∧ (i = 0 ∨ isWordChar (t.getD (i - 1) ' ') = false)
    ∧ (i + p.length = t.length ∨ isWordChar (t.getD (i + p.length) ' ') = false)

theorem ciListEq_eq_true_iff (l1 l2 : List Char) :
    ciListEq l1 l2 = true ↔
      l1.length = l2.length
        ∧ ∀ j < l2.length, lowerChar (l1.getD j ' ') = lowerChar (l2.getD j ' ') := by
  induction l1 generalizing l2 with
  | nil =>
    cases l2 with
    | nil => simp [ciListEq]
    | cons b bs => simp [ciListEq]
  | cons a as ih =>
    cases l2 with
    | nil => simp [ciListEq]
    | cons b bs =>
      simp only [ciListEq, Bool.and_eq_true, beq_iff_eq, ih, List.length_cons]
      constructor
      · rintro ⟨hab, hlen, hrest⟩
        refine ⟨by omega, ?_⟩
        intro j hj
        cases j with
        | zero => simpa using hab
        | succ k =>
          simp only [List.getD_cons_succ]
          exact hrest k (by omega)
      · rintro ⟨hlen, hall⟩
        refine ⟨by simpa using hall 0 (by omega), by omega, ?_⟩
        intro k hk
        have := hall (k + 1) (by omega)
        simpa using this

theorem getD_take_drop (t : List Char) (i n j : Nat) (d : Char)
    (hlen : i + n ≤ t.length) (hj : j < n) :
    ((t.drop i).take n).getD j d = t.getD (i + j) d := by
  have h1 : j < ((t.drop i).take n).length := by
    rw [List.length_take, List.length_drop]
    omega
  have h2 : i + j < t.length := by omega
  rw [List.getD_eq_getElem _ _ h1, List.getD_eq_getElem _ _ h2]
  rw [List.getElem_take, List.getElem_drop]

theorem length_take_drop_of_le (t : List Char) (i n : Nat) (hlen : i + n ≤ t.length) :
    ((t.drop i).take n).length = n := by
  rw [List.length_take, List.length_drop]
  omega

theorem standaloneMatchAt_eq_true_iff (p t : List Char) (i : Nat) :
    standaloneMatchAt p t i = true ↔ StandaloneOccurrenceAt p t i := by
  unfold standaloneMatchAt StandaloneOccurrenceAt
  simp only [Bool.and_eq_true, Bool.or_eq_true, decide_eq_true_eq, Bool.not_eq_true']
  constructor
  · rintro ⟨⟨⟨hlen, hci⟩, hpre⟩, hpost⟩
    rw [ciListEq_eq_true_iff] at hci
    refine ⟨hlen, ?_, hpre, hpost⟩
    intro j hj
    have := hci.2 j hj
    rwa [getD_take_drop t i p.length j ' ' hlen hj] at this
  · rintro ⟨hlen, hmid, hpre, hpost⟩
    refine ⟨⟨⟨hlen, ?_⟩, hpre⟩, hpost⟩
    rw [ciListEq_eq_true_iff]
    refine ⟨length_take_drop_of_le t i p.length hlen, ?_⟩
    intro j hj
    rw [getD_take_drop t i p.length j ' ' hlen hj]
    exact hmid j hj

/-- C1: the trigger-phrase detection returns true exactly when some text
field contains the configured phrase as a standalone token, bounded on
both sides by a non-word character or a string edge and compared
case-insensitively; hence it returns false when every occurrence of the
phrase is embedded inside a longer token, and any one matching field
suffices. -/
theorem detectTriggerPhrase_iff_standalone_occurrence (phrase : String)
    (textFields : List (Option String)) :
    detectTriggerPhrase phrase textFields = true ↔
      ∃ tf ∈ textFields, ∃ i, StandaloneOccurrenceAt phrase.data (tf.getD "").data i := by
  unfold detectTriggerPhrase phraseMatches
  rw [List.any_eq_true]
  constructor
  · rintro ⟨tf, htf, hmatch⟩
    rw [List.any_eq_true] at hmatch
    obtain ⟨i, _, hi⟩ := hmatch
    exact ⟨tf, htf, i, (standaloneMatchAt_eq_true_iff _ _ _).mp hi⟩
  · rintro ⟨tf, htf, i, hocc⟩
    refine ⟨tf, htf, ?_⟩
    rw [List.any_eq_true]
    refine ⟨i, ?_, (standaloneMatchAt_eq_true_iff _ _ _).mpr hocc⟩
    rw [List.mem_range]
    have := hocc.1
    omega

example : phraseMatches "@junie" "Please help @junie, thanks" = true := by decide

example : phraseMatches "@junie" "email@junie.com" = false := by decide

example : phraseMatches "@junie" "user@junie-test" = false := by decide

example : phraseMatches "@junie-agent" "hey @JUNIE-AGENT please" = true := by decide

example : detectTriggerPhrase "@junie" [some "Bug report", none, some "@junie please help"] = true := by decide

example : detectTriggerPhrase "@junie" [none, some ""] = false := by decide

/-! ### Regex escaping (escapeRegExp of trigger.ts) -/

/-- The regex metacharacters escaped by the spec (section 4.1 step 3):
dot, star, plus, question mark, caret, dollar, both braces, both
parentheses, pipe, both brackets, backslash. -/
def regexSpecialChars : List Char :=
  ['.', '*', '+', '?', '^', '$', '\x7b', '\x7d', '(', ')', '|', '[', ']', '\\']

/-- Modelled from the spec: escapeRegExp from the missing
src/github/validation/trigger.ts, section 4.1 step 3: each regex
metacharacter is preceded by a backslash, every other character passes
through unescaped. -/
def escapeRegExpList : List Char → List Char
  | [] => []
  | c :: rest => (if c ∈ regexSpecialChars then ['\\', c] else [c]) ++ escapeRegExpList rest

/-- String version of escapeRegExpList. -/
def escapeRegExp (s : String) : String :=
  String.mk (escapeRegExpList s.data)

/-- Interpretation of a regex pattern as a literal-string pattern: a
sequence of atoms that are either a backslash-escaped character or a
plain non-metacharacter, denoting the exact character sequence, and
hence matching that string and no other.  Patterns containing an
unescaped metacharacter (whose meaning is not a single literal
character) have no literal denotation. -/
def denoteLiteralPattern : List Char → Option (List Char)
  | [] => some []
  | [c] => if c ∈ regexSpecialChars then none else some [c]
  | c :: d :: rest =>
    if c == '\\' then (denoteLiteralPattern rest).map (fun l => d :: l)
    else if c ∈ regexSpecialChars then none
    else (denoteLiteralPattern (d :: rest)).map (fun l => c :: l)

/-- Matching a string against a pattern that denotes a literal string. -/
def regexMatchesLiterally (pat s : String) : Bool :=
  denoteLiteralPattern pat.data == some s.data

theorem denoteLiteralPattern_escape (l : List Char) :
    denoteLiteralPattern (escapeRegExpList l) = some l := by
  induction l with
  | nil => rfl
  | cons c rest ih =>
    by_cases hc : c ∈ regexSpecialChars
    · simp only [escapeRegExpList, if_pos hc, List.cons_append, List.nil_append]
      simp [denoteLiteralPattern, ih]
    · simp only [escapeRegExpList, if_neg hc, List.cons_append, List.nil_append]
      have hcb : (c == '\\') = false := by
        refine beq_eq_false_iff_ne.mpr ?_
        intro h
        exact hc (h ▸ (by decide : '\\' ∈ regexSpecialChars))
      cases hE : escapeRegExpList rest with
      | nil =>
        rw [hE] at ih
        simp [denoteLiteralPattern, hc]
        simpa [denoteLiteralPattern] using ih
      | cons d tail =>
        rw [hE] at ih
        simp [denoteLiteralPattern, hcb, hc, ih]

theorem escapeRegExpList_id (l : List Char) (h : ∀ c ∈ l, c ∉ regexSpecialChars) :
    escapeRegExpList l = l := by
  induction l with
  | nil => rfl
  | cons c rest ih =>
    simp only [escapeRegExpList, if_neg (h c (by simp)), List.cons_append, List.nil_append]
    rw [ih (fun d hd => h d (by simp [hd]))]

/-- C9: the escaped form of any string P, read as a regex, matches P
literally and only P; and a string with no regex metacharacter passes
through the escape unchanged. -/
theorem escapeRegExp_matches_literally (P s : String) :
    (regexMatchesLiterally (escapeRegExp P) s = true ↔ s = P)
    ∧ ((∀ c ∈ P.data, c ∉ regexSpecialChars) → escapeRegExp P = P) := by
  constructor
  · show (denoteLiteralPattern (escapeRegExpList P.data) == some s.data) = true ↔ s = P
    rw [denoteLiteralPattern_escape, beq_iff_eq, Option.some_inj]
    constructor
    · intro h
      exact String.ext h.symm
    · intro h
      rw [h]
  · intro hnone
    show String.mk (escapeRegExpList P.data) = P
    rw [escapeRegExpList_id P.data hnone]

/-- Witness for C9: the escape of a metacharacter-laden phrase matches
exactly that phrase, and the default phrase passes through unchanged. -/
theorem escapeRegExp_matches_literally_witness :
    regexMatchesLiterally (escapeRegExp "a.b*c$") "a.b*c$" = true
    ∧ escapeRegExp "@junie" = "@junie" :=
  ⟨(escapeRegExp_matches_literally "a.b*c$" "a.b*c$").1.mpr rfl,
   (escapeRegExp_matches_literally "@junie" "").2 (by decide)⟩

example : escapeRegExp "$test" = "\\$test" := by decide

example : escapeRegExp "[bot]" = "\\[bot\\]" := by decide

example : escapeRegExp "a*b+c?" = "a\\*b\\+c\\?" := by decide

end JunieAction
